import Mathlib

/-!
Verification development for the snow-removal parking-post pipeline.

The repository has two Python entry points:
* a sync pipeline (main.py): paginated fetch from a feature service,
  batched coordinate projection, reverse geocoding with an in-run cache,
  merge with the previously written CSV, CSV write;
* a repair pipeline (fill_missing_rues.py): re-reads the CSV and backfills
  missing street labels with a bounded retry loop.

This file gives a shallow embedding of both scripts.  External HTTP
services (feature query, geometry projection, reverse geocode) are
modelled as function parameters; an attempt that raises an exception is
modelled as the oracle returning none.  Python dictionaries are modelled
as association lists, CSV rows as ordered lists of string pairs, and
coordinate numbers as rationals.  Each definition follows the source
line by line; instrumentation counters (number of network requests made,
sleeps performed) are added so that the error-handling and caching
claims can be stated.
-/

/-- A CSV row as produced by csv.DictReader: an ordered association list
from column name to cell string. -/
abbrev Row := List (String × String)

/-- Python row.get(k): dictionary lookup returning an optional value. -/
def rowGet (r : Row) (k : String) : Option String := List.lookup k r

/-- ASCII whitespace test, modelling the characters Python str.strip
removes for the data appearing in this pipeline. -/
def isSpace (c : Char) : Bool := c = ' ' ∨ c = '\t' ∨ c = '\n' ∨ c = '\r'

/-- Python str.strip(): drop whitespace from both ends. -/
def pyStrip (s : String) : String :=
  ⟨((s.data.dropWhile isSpace).reverse.dropWhile isSpace).reverse⟩

/-- Python str.upper() (ASCII uppercasing, as used on street labels). -/
def pyUpper (s : String) : String := ⟨s.data.map Char.toUpper⟩

/-- Python falsy-or on strings: a or b is b when a is empty, else a.
A missing dictionary key (None) is represented by the empty string via
Option.getD, since None and the empty string behave identically under
the or-chains in both scripts. -/
def pyOrS (a b : String) : String := if a = "" then b else a

/-- The address object of a reverse-geocode JSON response: the three
fields both scripts read, each possibly absent. -/
structure Addr where
  LongLabel : Option String
  Address : Option String
  Match_addr : Option String
deriving DecidableEq

namespace Fill

/-- Label extraction of fill_missing_rues.reverse_geocode, lines 30-36:
addr.get("LongLabel") or addr.get("Address") or addr.get("Match_addr") or "". -/
def getLabel (addr : Addr) : String :=
  pyOrS (addr.LongLabel.getD "") (pyOrS (addr.Address.getD "") (addr.Match_addr.getD ""))

/-- MAX_RETRIES constant of fill_missing_rues.py. -/
def MAX_RETRIES : ℕ := 3

/-- Result of one call to the repair script reverse_geocode: the label
returned, the number of request attempts actually made, and the list of
back-off sleeps performed (in seconds), in order. -/
structure RGResult where
  label : String
  attempts : ℕ
  sleeps : List ℚ
deriving DecidableEq

/-- The retry loop of fill_missing_rues.reverse_geocode, lines 26-43.
The loop runs over the attempt numbers [1, ..., MAX_RETRIES]; the oracle
geo gives the parsed response of the attempt with that number, none
modelling an exception.  On an exception at the last attempt the
function returns the empty string; on an earlier exception it sleeps
0.5 * attempt seconds and retries. -/
def rgLoop (geo : ℕ → Option Addr) : List ℕ → RGResult
  | [] => ⟨"", 0, []⟩
  | a :: rest =>
    match geo a with
    | some addr => ⟨getLabel addr, 1, []⟩
    | none =>
      if a = MAX_RETRIES then ⟨"", 1, []⟩
      else
        let r := rgLoop geo rest
        ⟨r.label, r.attempts + 1, ((a : ℚ) / 2) :: r.sleeps⟩

/-- fill_missing_rues.reverse_geocode: iterate over range(1, MAX_RETRIES + 1). -/
def reverse_geocode (geo : ℕ → Option Addr) : RGResult :=
  rgLoop geo (List.range' 1 MAX_RETRIES)

/-- Value of a list of decimal digit characters. -/
def decVal (ds : List Char) : ℕ := ds.foldl (fun a c => a * 10 + (c.toNat - 48)) 0

/-- Assemble mantissa * 10 ^ e as a rational. -/
def mkVal (m : ℤ) (e : ℤ) : ℚ :=
  if 0 ≤ e then ((m * 10 ^ e.toNat : ℤ) : ℚ)
  else (m : ℚ) / ((10 ^ (-e).toNat : ℤ) : ℚ)

/-- Model of Python float(s) on decimal literals: optional sign, digits
with an optional fractional part (at least one digit overall), optional
exponent part, surrounded by optional whitespace.  Returns none when
Python would raise ValueError.  (Non-finite spellings such as inf and
nan, and digit-group underscores, are outside this model; the pipeline
data never contains them.) -/
def pyFloat (s : String) : Option ℚ :=
  let cs := (pyStrip s).data
  let sgnNeg : Bool := match cs with | '-' :: _ => true | _ => false
  let cs1 := match cs with
    | '-' :: t => t
    | '+' :: t => t
    | t => t
  let ip := cs1.takeWhile Char.isDigit
  let rest1 := cs1.dropWhile Char.isDigit
  let hasDot : Bool := match rest1 with | '.' :: _ => true | _ => false
  let afterDot := match rest1 with | '.' :: t => t | t => t
  let fp := if hasDot then afterDot.takeWhile Char.isDigit else []
  let rest2 := if hasDot then afterDot.dropWhile Char.isDigit else rest1
  if ip = [] ∧ fp = [] then none
  else
    let m : ℤ := (if sgnNeg then -1 else 1) * (decVal (ip ++ fp) : ℤ)
    match rest2 with
    | [] => some (mkVal m (-(fp.length : ℤ)))
    | c :: t =>
      if c = 'e' ∨ c = 'E' then
        let esgnNeg : Bool := match t with | '-' :: _ => true | _ => false
        let t1 := match t with
          | '-' :: u => u
          | '+' :: u => u
          | u => u
        let ed := t1.takeWhile Char.isDigit
        let rest3 := t1.dropWhile Char.isDigit
        if ed = [] ∨ rest3 ≠ [] then none
        else some (mkVal m ((if esgnNeg then -1 else 1) * (decVal ed : ℤ) - (fp.length : ℤ)))
      else none

/-- One coordinate of the guarded parse in main, lines 62-66:
float(v) if v not in (None, "", "None") else None.
ok none models the None result, error models ValueError. -/
def coordVal (v : Option String) : Except Unit (Option ℚ) :=
  match v with
  | none => Except.ok none
  | some s =>
    if s = "" ∨ s = "None" then Except.ok none
    else
      match pyFloat s with
      | some q => Except.ok (some q)
      | none => Except.error ()

/-- Combined coordinate parse of fill_missing_rues.main, lines 62-68:
a ValueError on either coordinate sets both to None, and the row is then
skipped when either is None; the geocode step runs exactly when both
coordinates parse to floats. -/
def pyCoords (lon lat : Option String) : Option (ℚ × ℚ) :=
  match coordVal lon, coordVal lat with
  | Except.ok (some lo), Except.ok (some la) => some (lo, la)
  | _, _ => none

/-- Python dict assignment row[k] = v on a DictReader row: overwrite the
value in place when the key exists, append otherwise. -/
def rowSet (r : Row) (k v : String) : Row :=
  if (List.lookup k r).isSome then r.map (fun p => if p.1 = k then (p.1, v) else p)
  else r ++ [(k, v)]

/-- Loop body of fill_missing_rues.main, lines 53-74, for one row.
Returns the (possibly updated) row and the number of reverse-geocode
invocations made for it (0 or 1).  geo gives the per-attempt response of
the geocode service at the queried coordinates. -/
def processRow (geo : ℚ → ℚ → ℕ → Option Addr) (row : Row) : Row × ℕ :=
  let rue := pyStrip ((rowGet row "RUE_REVERSE").getD "")
  if rue ≠ "" ∧ pyUpper rue ≠ "MISSING_RUE" then (row, 0)
  else
    match pyCoords (rowGet row "LON_WGS84") (rowGet row "LAT_WGS84") with
    | none => (row, 0)
    | some (lo, la) =>
      let label := (reverse_geocode (geo lo la)).label
      if label ≠ "" then (rowSet row "RUE_REVERSE" label, 1) else (row, 1)

/-- fill_missing_rues.main, lines 46-79: read all rows, take the header
from the keys of the first row (raising IndexError, modelled as none,
when there are no data rows), process every row, and write header plus
all rows back.  The returned pair is (fieldnames written, rows written). -/
def fillMain (geo : ℚ → ℚ → ℕ → Option Addr) (rows : List Row) :
    Option (List String × List Row) :=
  match rows with
  | [] => none
  | r0 :: _ => some (r0.map Prod.fst, rows.map (fun r => (processRow geo r).1))

/-- The skip test of line 59: a label that is present (non-blank after
strip) and differs, case-insensitively, from the sentinel MISSING_RUE. -/
def labelPresent (row : Row) : Prop :=
  pyStrip ((rowGet row "RUE_REVERSE").getD "") ≠ "" ∧
    pyUpper (pyStrip ((rowGet row "RUE_REVERSE").getD "")) ≠ "MISSING_RUE"

instance (row : Row) : Decidable (labelPresent row) := by
  unfold labelPresent
  infer_instance

end Fill

namespace Sync

/-- Label extraction of main.reverse_geocode, lines 76-82, identical in
shape to the one in the repair script. -/
def getLabel (addr : Addr) : String :=
  pyOrS (addr.LongLabel.getD "") (pyOrS (addr.Address.getD "") (addr.Match_addr.getD ""))

/-- The 6-decimal rounding used to build the cache key
f"{lon:.6f},{lat:.6f}" of main.reverse_geocode, line 62: the integer of
six-decimal fixed-point rounding, computed on the rational q as
floor(q * 10^6 + 1/2) via numerator and denominator. -/
def round6 (q : ℚ) : ℤ := Int.fdiv (2000000 * q.num + q.den) (2 * q.den)

/-- Cache key: the pair of rounded coordinates, standing for the string
"lon,lat" with both numbers printed to six decimals. -/
def rkey (lon lat : ℚ) : ℤ × ℤ := (round6 lon, round6 lat)

/-- The in-run geocode cache of main.py: a dictionary from rounded
coordinate key to resolved label. -/
abbrev Cache := List ((ℤ × ℤ) × String)

/-- Result of one call to main.reverse_geocode: label, cache afterwards,
and the number of network requests made (0 or 1). -/
structure GeoResult where
  label : String
  cache : Cache
  requests : ℕ
deriving DecidableEq

/-- main.reverse_geocode, lines 59-87.  The lon/lat arguments may be
None (line 60).  The geo oracle is the reverse-geocode endpoint; none
models any exception raised while requesting or decoding, and the
response with a missing or null address field is the all-none Addr.
A single attempt is made; any exception degrades to the empty label,
which is cached like a successful result (lines 85-87). -/
def reverse_geocode (geo : ℚ → ℚ → Option Addr) (lon lat : Option ℚ) (cache : Cache) :
    GeoResult :=
  match lon, lat with
  | some lo, some la =>
    let key := rkey lo la
    match List.lookup key cache with
    | some v => ⟨v, cache, 0⟩
    | none =>
      match geo lo la with
      | some addr =>
        let label := getLabel addr
        ⟨label, (key, label) :: cache, 1⟩
      | none => ⟨"", (key, "") :: cache, 1⟩
  | _, _ => ⟨"", cache, 0⟩

/-- A point sent to or received from the projection endpoint: the x and
y components, either possibly absent (a feature with no geometry
contributes x = None, y = None, line 119). -/
abbrev OPoint := Option ℚ × Option ℚ

/-- main.project_points, lines 34-50: an empty input short-circuits to
an empty output with no network call; otherwise one POST request is made
and the geometries array of the response is returned.  The second
component counts requests. -/
def project_points (endpoint : List OPoint → List OPoint) (points : List OPoint) :
    List OPoint × ℕ :=
  match points with
  | [] => ([], 0)
  | _ :: _ => (endpoint points, 1)

/-- Batch size of the projection stage, main.py line 123. -/
def BATCH_SIZE : ℕ := 200

/-- The projection loop of main.main, lines 122-125:
for i in range(0, len(points), 200): projected.extend(project_points(chunk)).
Structured as recursion on the remaining list with a step counter as
fuel (the loop always advances by a non-empty chunk, so fuel equal to
the list length suffices).  Returns the concatenated projected points
and the list of argument lists actually passed to the endpoint. -/
def projectLoop (endpoint : List OPoint → List OPoint) :
    ℕ → List OPoint → List OPoint × List (List OPoint)
  | 0, _ => ([], [])
  | _ + 1, [] => ([], [])
  | steps + 1, p :: rest =>
    let chunk := (p :: rest).take BATCH_SIZE
    let res := project_points endpoint chunk
    let r := projectLoop endpoint steps ((p :: rest).drop BATCH_SIZE)
    (res.1 ++ r.1, (if res.2 = 0 then [] else [chunk]) ++ r.2)

/-- The whole batched projection stage applied to a point list. -/
def batchedProject (endpoint : List OPoint → List OPoint) (points : List OPoint) :
    List OPoint × List (List OPoint) :=
  projectLoop endpoint points.length points

/-- The attribute object of a fetched feature: the five requested
outFields, each possibly absent from the response. -/
structure Attrs where
  STATION_NO : Option String
  STATUT : Option String
  DATE_MAJ : Option ℤ
  STATIONNEMENT : Option String
  OBJECTID : Option ℤ
deriving DecidableEq

/-- A fetched feature: attributes plus the x and y of its point
geometry; feat.get("attributes", {}) and feat.get("geometry", {}) or {}
are modelled by all-none components. -/
structure Feature where
  attributes : Attrs
  gx : Option ℚ
  gy : Option ℚ
deriving DecidableEq

/-- str(attrs.get("OBJECTID", "")), line 147: decimal print of the id,
or the empty string when absent. -/
def objectidOf (a : Attrs) : String :=
  match a.OBJECTID with
  | some n => toString n
  | none => ""

/-- A written CSV cell: csv.writer receives either a string or a raw
number (the geometry and projected coordinates). -/
inductive Cell where
  | str (s : String)
  | num (q : ℚ)
deriving DecidableEq

/-- Written form of an optional numeric value with empty-string default,
as in geom.get("x", "") and lon if lon is not None else "". -/
def cellOfOpt (v : Option ℚ) : Cell :=
  match v with
  | some q => Cell.num q
  | none => Cell.str ""

/-- Left-pad a natural number with zeros to the given width. -/
def padNum (width n : ℕ) : String :=
  let s := toString n
  if s.length < width then String.mk (List.replicate (width - s.length) '0') ++ s else s

/-- Proleptic Gregorian date from a day count relative to 1970-01-01
(civil-from-days, floor-division form): year, month, day. -/
def civilFromDays (day : ℤ) : ℤ × ℕ × ℕ :=
  let n := day + 719468
  let era := Int.fdiv n 146097
  let doe := (n - era * 146097).toNat
  let yoe := (doe - doe / 1460 + doe / 36524 - doe / 146096) / 365
  let doy := doe - (365 * yoe + yoe / 4 - yoe / 100)
  let mp := (5 * doy + 2) / 153
  let d := doy - (153 * mp + 2) / 5 + 1
  let m := if mp < 10 then mp + 3 else mp - 9
  ((yoe : ℤ) + era * 400 + (if m ≤ 2 then 1 else 0), m, d)

/-- main.ms_to_iso, lines 53-56: empty string for None, otherwise the
ISO-8601 form of utcfromtimestamp(ms / 1000); the quotient ms / 1000 is
carried exactly as a count of microseconds. -/
def ms_to_iso (ms : Option ℤ) : String :=
  match ms with
  | none => ""
  | some m =>
    let usTotal := m * 1000
    let day := Int.fdiv usTotal 86400000000
    let rem := (usTotal - day * 86400000000).toNat
    let c := civilFromDays day
    let y := c.1
    let us := rem % 1000000
    let sec := rem / 1000000 % 60
    let minute := rem / 60000000 % 60
    let hour := rem / 3600000000
    (if y < 0 then "-" ++ padNum 4 (-y).toNat else padNum 4 y.toNat) ++ "-" ++
      padNum 2 c.2.1 ++ "-" ++ padNum 2 c.2.2 ++ "T" ++ padNum 2 hour ++ ":" ++
      padNum 2 minute ++ ":" ++ padNum 2 sec ++
      (if us = 0 then "" else "." ++ padNum 6 us)

/-- The writer.writerow argument of main.main, lines 158-171, given the
already-chosen lon cell, lat cell and street label. -/
def writeRow (attrs : Attrs) (feat : Feature) (lonC latC : Cell) (street : String) :
    List Cell :=
  [ Cell.str (attrs.STATION_NO.getD ""), Cell.str (attrs.STATUT.getD ""),
    Cell.str (ms_to_iso attrs.DATE_MAJ), Cell.str (attrs.STATIONNEMENT.getD ""),
    Cell.str (objectidOf attrs), cellOfOpt feat.gx, cellOfOpt feat.gy,
    lonC, latC, Cell.str street ]

/-- main.load_existing, lines 90-99, as a lookup: the previous CSV rows
are keyed by row.get("OBJECTID", ""); dictionary insertion means the
last row with a given key wins. -/
def load_existing (prev : List Row) (oid : String) : Option Row :=
  prev.reverse.find? (fun r => ((rowGet r "OBJECTID").getD "") == oid)

/-- Loop body of main.main, lines 144-171, for the feature at position
idx.  Returns the written row, the geocode cache afterwards, and the
number of reverse-geocode network requests made for this feature.
When a previous row with the same OBJECTID exists (and, being a
DictReader row, is a non-empty dictionary, hence truthy), its stored
longitude, latitude and street label are written and no reverse
geocoding happens; otherwise the projected point at idx (an out-of-range
idx gives the empty dictionary, line 154) is reverse geocoded. -/
def processFeature (geo : ℚ → ℚ → Option Addr) (prev : List Row) (projected : List OPoint)
    (idx : ℕ) (feat : Feature) (cache : Cache) : List Cell × Cache × ℕ :=
  let attrs := feat.attributes
  let objectid := objectidOf attrs
  let existing := (load_existing prev objectid).getD []
  if existing ≠ [] then
    let lon := (rowGet existing "LON_WGS84").getD ""
    let lat := (rowGet existing "LAT_WGS84").getD ""
    let street := (rowGet existing "RUE_REVERSE").getD ""
    (writeRow attrs feat (Cell.str lon) (Cell.str lat) street, cache, 0)
  else
    let wgs := projected.getD idx (none, none)
    let r := reverse_geocode geo wgs.1 wgs.2 cache
    (writeRow attrs feat (cellOfOpt wgs.1) (cellOfOpt wgs.2) r.label, r.cache, r.requests)

/-- The whole per-feature writing loop: rows written, final cache, and
total number of reverse-geocode requests. -/
def syncRowsAux (geo : ℚ → ℚ → Option Addr) (prev : List Row) (projected : List OPoint) :
    ℕ → List Feature → Cache → List (List Cell) × Cache × ℕ
  | _, [], cache => ([], cache, 0)
  | idx, feat :: rest, cache =>
    let r := processFeature geo prev projected idx feat cache
    let rs := syncRowsAux geo prev projected (idx + 1) rest r.2.1
    (r.1 :: rs.1, rs.2.1, r.2.2 + rs.2.2)

/-- The point list built from the fetched features, main.main lines
118-121: every feature contributes its geometry, merged or not. -/
def syncPoints (feats : List Feature) : List OPoint :=
  feats.map (fun f => (f.gx, f.gy))

/-- Page size of the fetch loop, main.py line 14. -/
def PAGE_SIZE : ℕ := 500

/-- Trace of the pagination loop: the pages received in order, the
offset used for each request, the accumulated feature list, and the
final value of the offset variable. -/
structure FetchResult where
  pages : List (List Feature)
  offsets : List ℕ
  features : List Feature
  finalOffset : ℕ
deriving DecidableEq

/-- The while-loop of main.main, lines 107-115, with explicit fuel
(the Python loop is unbounded; none models non-termination within the
given fuel).  server offset limit is the features array of the page
fetched at that offset.  An empty page stops before extending; a page
shorter than PAGE_SIZE stops after extending and advancing the offset;
otherwise the loop repeats at the advanced offset. -/
def fetchLoopGo (server : ℕ → ℕ → List Feature) : ℕ → ℕ → Option FetchResult
  | 0, _ => none
  | fuel + 1, offset =>
    let page := server offset PAGE_SIZE
    if page = [] then some ⟨[page], [offset], [], offset⟩
    else if page.length < PAGE_SIZE then
      some ⟨[page], [offset], page, offset + page.length⟩
    else
      (fetchLoopGo server fuel (offset + page.length)).map fun r =>
        ⟨page :: r.pages, offset :: r.offsets, page ++ r.features, r.finalOffset⟩

/-- main.main end to end: fetch all pages starting at offset 0, project
every feature geometry in batches, then write one row per feature,
merging with the previous CSV.  Returns the written rows and the total
number of reverse-geocode requests. -/
def syncMain (server : ℕ → ℕ → List Feature) (endpoint : List OPoint → List OPoint)
    (geo : ℚ → ℚ → Option Addr) (fuel : ℕ) (prev : List Row) :
    Option (List (List Cell) × ℕ) :=
  (fetchLoopGo server fuel 0).map fun fr =>
    let projected := (batchedProject endpoint (syncPoints fr.features)).1
    let r := syncRowsAux geo prev projected 0 fr.features []
    (r.1, r.2.2)

end Sync

/-! ### Concrete inputs used by the closed instances below -/

/-- A geocode oracle for the repair script that fails on every attempt. -/
def exGeoFail : ℚ → ℚ → ℕ → Option Addr := fun _ _ _ => none

/-- A geocode oracle for the repair script that answers every attempt
with a long label. -/
def exGeoHit : ℚ → ℚ → ℕ → Option Addr :=
  fun _ _ _ => some ⟨some "Rue Neuve", none, some "M"⟩

/-- A per-attempt oracle that always fails (used on the retry loop directly). -/
def exAttemptsFail : ℕ → Option Addr := fun _ => none

/-- A sync-script geocode oracle that always fails. -/
def exGeoFailS : ℚ → ℚ → Option Addr := fun _ _ => none

/-- A CSV row carrying the sentinel label and plain numeric coordinates. -/
def exMissingRow : Row :=
  [("STATION_NO", "S7"), ("STATUT", "A"), ("DATE_MAJ_ISO", ""),
   ("STATIONNEMENT", ""), ("OBJECTID", "7"), ("X_32187", "300000"),
   ("Y_32187", "5040000"), ("LON_WGS84", "-73.5"), ("LAT_WGS84", "45.5"),
   ("RUE_REVERSE", "MISSING_RUE")]

/-- A candidate row with whole-number coordinates and an empty label. -/
def exEmptyRow : Row :=
  [("STATION_NO", "S8"), ("STATUT", "A"), ("DATE_MAJ_ISO", ""),
   ("STATIONNEMENT", ""), ("OBJECTID", "8"), ("X_32187", "300001"),
   ("Y_32187", "5040001"), ("LON_WGS84", "-73"), ("LAT_WGS84", "45"),
   ("RUE_REVERSE", "")]

/-- A row whose label is present, used for the frame property. -/
def exKeptRow : Row :=
  [("STATION_NO", "S1"), ("STATUT", "A"), ("DATE_MAJ_ISO", ""),
   ("STATIONNEMENT", ""), ("OBJECTID", "1"), ("X_32187", "300002"),
   ("Y_32187", "5040002"), ("LON_WGS84", "-73.2"), ("LAT_WGS84", "45.1"),
   ("RUE_REVERSE", "Rue Existing")]

/-- A candidate row with non-numeric coordinates and a missing label. -/
def exBadCoordRow : Row :=
  [("STATION_NO", "S3"), ("STATUT", "A"), ("DATE_MAJ_ISO", ""),
   ("STATIONNEMENT", ""), ("OBJECTID", "3"), ("X_32187", ""),
   ("Y_32187", ""), ("LON_WGS84", "abc"), ("LAT_WGS84", "45.1"),
   ("RUE_REVERSE", "")]

/-- A previously written sync row with a resolved street label. -/
def exPrevRow : Row :=
  [("STATION_NO", "S1"), ("STATUT", "A"), ("DATE_MAJ_ISO", ""),
   ("STATIONNEMENT", ""), ("OBJECTID", "42"), ("X_32187", "300000"),
   ("Y_32187", "5040000"), ("LON_WGS84", "-73.1"), ("LAT_WGS84", "45.2"),
   ("RUE_REVERSE", "Rue Test")]

/-- A fetched feature with the same OBJECTID as exPrevRow. -/
def exFeat : Sync.Feature := ⟨⟨some "S1", some "A", none, some "", some 42⟩, some 3, some 5⟩

/-- A feature server answering every request with the single-feature page. -/
def exServer : ℕ → ℕ → List Sync.Feature := fun _ _ => [exFeat]

/-- The pointwise projection used by the example endpoint. -/
def exProj : Sync.OPoint → Sync.OPoint := fun p => p

/-- An order-preserving projection endpoint built from exProj. -/
def exEndpoint : List Sync.OPoint → List Sync.OPoint := fun l => l.map exProj

/-- 1.0000001 as a rational. -/
def exLonA : ℚ := ⟨10000001, 10000000, by norm_num, by norm_num⟩

/-- 1.0000004 as a rational: distinct from exLonA but equal after
rounding to six decimals. -/
def exLonB : ℚ := ⟨2500001, 2500000, by norm_num, by norm_num⟩

/-- The fetch trace produced by exServer within one step: a single page
of one feature, shorter than the page size. -/
def exFetch : Sync.FetchResult := ⟨[[exFeat]], [0], [exFeat], 1⟩

/-! ### Helper lemmas -/

/-- The falsy-or chain over three optional strings selects the first
present, non-empty value. -/
theorem pyOr3_spec (x y z : Option String) :
    (∀ s, x = some s → s ≠ "" → pyOrS (x.getD "") (pyOrS (y.getD "") (z.getD "")) = s)
  ∧ (x.getD "" = "" → ∀ s, y = some s → s ≠ "" →
      pyOrS (x.getD "") (pyOrS (y.getD "") (z.getD "")) = s)
  ∧ (x.getD "" = "" → y.getD "" = "" → ∀ s, z = some s → s ≠ "" →
      pyOrS (x.getD "") (pyOrS (y.getD "") (z.getD "")) = s)
  ∧ (x.getD "" = "" → y.getD "" = "" → z.getD "" = "" →
      pyOrS (x.getD "") (pyOrS (y.getD "") (z.getD "")) = "") := by
  refine ⟨?_, ?_, ?_, ?_⟩
  · intro s hx hs
    rw [hx]
    simp [pyOrS, hs]
  · intro hx s hy hs
    rw [hx, hy]
    simp [pyOrS, hs]
  · intro hx hy s hz hs
    rw [hx, hy, hz]
    simp [pyOrS, hs]
  · intro hx hy hz
    rw [hx, hy, hz]
    simp [pyOrS]

/-- A call of the sync reverse_geocode with actual coordinates always
leaves its own key mapped to the label it returned. -/
theorem sync_geocode_caches (geo : ℚ → ℚ → Option Addr) (lo la : ℚ) (c : Sync.Cache) :
    List.lookup (Sync.rkey lo la) (Sync.reverse_geocode geo (some lo) (some la) c).cache
      = some (Sync.reverse_geocode geo (some lo) (some la) c).label := by
  simp only [Sync.reverse_geocode]
  cases hl : List.lookup (Sync.rkey lo la) c with
  | some v => simpa using hl
  | none => cases geo lo la <;> simp

/-! ### Claims -/

/-- Claim C10: when the input CSV has a header row but zero data rows,
the repair script main evaluates rows[0] on an empty list, which raises
IndexError (modelled as none) before anything is written back. -/
theorem fill_empty_rows_error (geo : ℚ → ℚ → ℕ → Option Addr) :
    Fill.fillMain geo [] = none := rfl

/-- Claim C5: in both scripts the extracted label is LongLabel when
present and non-empty, else Address (when present and non-empty), else
Match_addr (when present and non-empty), else the empty string; an
absent key and an empty value behave identically in the or-chain. -/
theorem label_preference (a b : Addr) :
    ((∀ s, a.LongLabel = some s → s ≠ "" → Sync.getLabel a = s)
      ∧ (a.LongLabel.getD "" = "" → ∀ s, a.Address = some s → s ≠ "" → Sync.getLabel a = s)
      ∧ (a.LongLabel.getD "" = "" → a.Address.getD "" = "" →
          ∀ s, a.Match_addr = some s → s ≠ "" → Sync.getLabel a = s)
      ∧ (a.LongLabel.getD "" = "" → a.Address.getD "" = "" → a.Match_addr.getD "" = "" →
          Sync.getLabel a = ""))
  ∧ ((∀ s, b.LongLabel = some s → s ≠ "" → Fill.getLabel b = s)
      ∧ (b.LongLabel.getD "" = "" → ∀ s, b.Address = some s → s ≠ "" → Fill.getLabel b = s)
      ∧ (b.LongLabel.getD "" = "" → b.Address.getD "" = "" →
          ∀ s, b.Match_addr = some s → s ≠ "" → Fill.getLabel b = s)
      ∧ (b.LongLabel.getD "" = "" → b.Address.getD "" = "" → b.Match_addr.getD "" = "" →
          Fill.getLabel b = "")) :=
  ⟨pyOr3_spec a.LongLabel a.Address a.Match_addr,
   pyOr3_spec b.LongLabel b.Address b.Match_addr⟩

/-- Witness for C5 at concrete address objects. -/
theorem label_preference_witness :
    Sync.getLabel ⟨some "Long", some "Addr", some "M"⟩ = "Long"
  ∧ Fill.getLabel ⟨none, some "Addr", some "M"⟩ = "Addr"
  ∧ Fill.getLabel ⟨some "", none, some "M"⟩ = "M"
  ∧ Sync.getLabel ⟨none, some "", none⟩ = "" :=
  ⟨(label_preference ⟨some "Long", some "Addr", some "M"⟩ ⟨none, none, none⟩).1.1
      "Long" rfl (by decide),
   (label_preference ⟨none, none, none⟩ ⟨none, some "Addr", some "M"⟩).2.2.1
      rfl "Addr" rfl (by decide),
   (label_preference ⟨none, none, none⟩ ⟨some "", none, some "M"⟩).2.2.2.1
      rfl rfl "M" rfl (by decide),
   (label_preference ⟨none, some "", none⟩ ⟨none, none, none⟩).1.2.2.2 rfl rfl rfl⟩

/-- Claim C6: the sync reverse_geocode makes at most one request
attempt for any input, and when the attempt fails (any exception, with
the key not already cached) the returned label is the empty string; the
function is total, so a geocode failure never aborts the run. -/
theorem sync_geocode_single_attempt (geo : ℚ → ℚ → Option Addr) (lon lat : Option ℚ)
    (c : Sync.Cache) :
    (Sync.reverse_geocode geo lon lat c).requests ≤ 1
  ∧ (∀ lo la, lon = some lo → lat = some la →
      List.lookup (Sync.rkey lo la) c = none → geo lo la = none →
      (Sync.reverse_geocode geo lon lat c).label = "") := by
  constructor
  · cases lon with
    | none => simp [Sync.reverse_geocode]
    | some lo =>
      cases lat with
      | none => simp [Sync.reverse_geocode]
      | some la =>
        simp only [Sync.reverse_geocode]
        cases List.lookup (Sync.rkey lo la) c with
        | some v => simp
        | none => cases geo lo la <;> simp
  · rintro lo la rfl rfl hc hg
    simp [Sync.reverse_geocode, hc, hg]

/-- Witness for C6: a failing oracle on an empty cache. -/
theorem sync_geocode_single_attempt_witness :
    (Sync.reverse_geocode exGeoFailS (some 3) (some 4) []).requests ≤ 1
  ∧ (Sync.reverse_geocode exGeoFailS (some 3) (some 4) []).label = "" :=
  ⟨(sync_geocode_single_attempt exGeoFailS (some 3) (some 4) []).1,
   (sync_geocode_single_attempt exGeoFailS (some 3) (some 4) []).2 3 4 rfl rfl rfl rfl⟩

/-- Claim C7: the repair reverse_geocode makes at most MAX_RETRIES = 3
attempts, sleeps 0.5 * attempt seconds after each failed non-final
attempt (so between consecutive attempts), and when all three attempts
fail it returns the empty string (without raising: the model is total). -/
theorem fill_retry_policy (geo : ℕ → Option Addr) :
    (Fill.reverse_geocode geo).attempts ≤ 3
  ∧ (Fill.reverse_geocode geo).sleeps
      = (List.range' 1 ((Fill.reverse_geocode geo).attempts - 1)).map (fun k => (k : ℚ) / 2)
  ∧ (geo 1 = none → geo 2 = none → geo 3 = none →
      (Fill.reverse_geocode geo).label = "" ∧ (Fill.reverse_geocode geo).attempts = 3) := by
  have hr : List.range' 1 Fill.MAX_RETRIES = [1, 2, 3] := rfl
  have h0 : List.range' 1 0 = [] := rfl
  have h21 : List.range' 1 1 = [1] := rfl
  have h22 : List.range' 1 2 = [1, 2] := rfl
  unfold Fill.reverse_geocode
  rw [hr]
  cases h1 : geo 1 with
  | some a1 => simp [Fill.rgLoop, h1, h0]
  | none =>
    cases h2 : geo 2 with
    | some a2 => simp [Fill.rgLoop, h1, h2, Fill.MAX_RETRIES, h21]
    | none =>
      cases h3 : geo 3 with
      | some a3 => simp [Fill.rgLoop, h1, h2, h3, Fill.MAX_RETRIES, h22]
      | none => simp [Fill.rgLoop, h1, h2, h3, Fill.MAX_RETRIES, h22]

/-- Witness for C7: an oracle failing on every attempt. -/
theorem fill_retry_policy_witness :
    (Fill.reverse_geocode exAttemptsFail).label = ""
  ∧ (Fill.reverse_geocode exAttemptsFail).attempts = 3 :=
  (fill_retry_policy exAttemptsFail).2.2 rfl rfl rfl

/-- Claim C8: within one run, a second reverse_geocode call whose
coordinates round to the same six-decimal key as a first call returns
the same label as the first call and performs no network request — the
cached value is served, including a cached empty label from a failed
first attempt. -/
theorem sync_geocode_cache_hit (geo : ℚ → ℚ → Option Addr) (lon1 lat1 lon2 lat2 : ℚ)
    (c0 : Sync.Cache) (hkey : Sync.rkey lon1 lat1 = Sync.rkey lon2 lat2) :
    (Sync.reverse_geocode geo (some lon2) (some lat2)
        (Sync.reverse_geocode geo (some lon1) (some lat1) c0).cache).label
      = (Sync.reverse_geocode geo (some lon1) (some lat1) c0).label
  ∧ (Sync.reverse_geocode geo (some lon2) (some lat2)
        (Sync.reverse_geocode geo (some lon1) (some lat1) c0).cache).requests = 0 := by
  have h := sync_geocode_caches geo lon1 lat1 c0
  rw [hkey] at h
  generalize hr : Sync.reverse_geocode geo (some lon1) (some lat1) c0 = r1 at h ⊢
  constructor <;> simp [Sync.reverse_geocode, h]

/-- Witness for C8: two numerically different longitudes with the same
six-decimal rounding, under a failing oracle (empty label cached). -/
theorem sync_geocode_cache_hit_witness :
    (Sync.reverse_geocode exGeoFailS (some exLonB) (some 45)
        (Sync.reverse_geocode exGeoFailS (some exLonA) (some 45) []).cache).label
      = (Sync.reverse_geocode exGeoFailS (some exLonA) (some 45) []).label
  ∧ (Sync.reverse_geocode exGeoFailS (some exLonB) (some 45)
        (Sync.reverse_geocode exGeoFailS (some exLonA) (some 45) []).cache).requests = 0 :=
  sync_geocode_cache_hit exGeoFailS exLonA 45 exLonB 45 [] (by decide)

/-- Looking up the overwritten key after the in-place map of rowSet. -/
theorem lookup_overwrite (r : Row) (k v : String) :
    List.lookup k (r.map (fun p => if p.1 = k then (p.1, v) else p))
      = (List.lookup k r).map (fun _ => v) := by
  induction r with
  | nil => rfl
  | cons a t ih =>
    obtain ⟨ka, va⟩ := a
    by_cases hak : ka = k
    · subst hak
      simp [List.lookup_cons, ih]
    · have hb : (k == ka) = false := beq_eq_false_iff_ne.mpr (Ne.symm hak)
      simp [List.lookup_cons, hak, hb, ih]

/-- After rowSet the key reads back as the written value. -/
theorem rowGet_rowSet (r : Row) (k v : String) :
    rowGet (Fill.rowSet r k v) k = some v := by
  unfold rowGet Fill.rowSet
  by_cases h : (List.lookup k r).isSome
  · rw [if_pos h, lookup_overwrite]
    obtain ⟨b, hb⟩ := Option.isSome_iff_exists.mp h
    rw [hb]
    rfl
  · rw [if_neg h, List.lookup_append]
    rw [Option.not_isSome_iff_eq_none] at h
    rw [h]
    simp [List.lookup_cons]

/-- Counterexample to Claim C2 as stated: a row carrying the sentinel
MISSING_RUE with parseable coordinates is re-queried, but when every
retry fails the code only overwrites the field when the label is truthy
(line 71 of the repair script), so the sentinel value stays; the field
is not set to the empty string. -/
theorem fill_failure_keeps_sentinel :
    rowGet exMissingRow "RUE_REVERSE" = some "MISSING_RUE"
  ∧ (Fill.processRow exGeoFail exMissingRow).2 = 1
  ∧ (Fill.processRow exGeoFail exMissingRow).1 = exMissingRow
  ∧ ¬ rowGet (Fill.processRow exGeoFail exMissingRow).1 "RUE_REVERSE" = some "" := by
  refine ⟨by decide, by decide, by decide, by decide⟩

/-- Claim C2 (amended): for every row whose RUE_REVERSE is empty or the
sentinel MISSING_RUE (case-insensitively) and whose coordinates parse as
floats, reverse geocoding is re-run (exactly one invocation); when a
label is found the field is overwritten with it; when all retries fail
(empty label) the row is left unchanged, retaining its previous empty or
sentinel value. -/
theorem fill_candidate_lookup (geo : ℚ → ℚ → ℕ → Option Addr) (row : Row) (lo la : ℚ)
    (hl : ¬ Fill.labelPresent row)
    (hc : Fill.pyCoords (rowGet row "LON_WGS84") (rowGet row "LAT_WGS84") = some (lo, la)) :
    (Fill.processRow geo row).2 = 1
  ∧ ((Fill.reverse_geocode (geo lo la)).label ≠ "" →
      (Fill.processRow geo row).1
          = Fill.rowSet row "RUE_REVERSE" (Fill.reverse_geocode (geo lo la)).label
        ∧ rowGet (Fill.processRow geo row).1 "RUE_REVERSE"
          = some (Fill.reverse_geocode (geo lo la)).label)
  ∧ ((Fill.reverse_geocode (geo lo la)).label = "" →
      (Fill.processRow geo row).1 = row) := by
  unfold Fill.labelPresent at hl
  have hp : Fill.processRow geo row
      = (if (Fill.reverse_geocode (geo lo la)).label ≠ ""
         then (Fill.rowSet row "RUE_REVERSE" (Fill.reverse_geocode (geo lo la)).label, 1)
         else (row, 1)) := by
    simp only [Fill.processRow, hc]
    rw [if_neg hl]
  refine ⟨?_, ?_, ?_⟩
  · rw [hp]
    by_cases hlb : (Fill.reverse_geocode (geo lo la)).label ≠ ""
    · rw [if_pos hlb]
    · rw [if_neg hlb]
  · intro hlb
    rw [hp, if_pos hlb]
    exact ⟨rfl, rowGet_rowSet row "RUE_REVERSE" (Fill.reverse_geocode (geo lo la)).label⟩
  · intro hlb
    rw [hp, if_neg (fun h => h hlb)]

/-- Witness for C2 (amended): an empty-label row with whole-number
coordinates under an oracle that answers with a long label. -/
theorem fill_candidate_lookup_witness :
    (Fill.processRow exGeoHit exEmptyRow).2 = 1
  ∧ (Fill.processRow exGeoHit exEmptyRow).1
      = Fill.rowSet exEmptyRow "RUE_REVERSE" "Rue Neuve" := by
  have h := fill_candidate_lookup exGeoHit exEmptyRow (((-73 : ℤ) : ℚ)) (((45 : ℤ) : ℚ))
      (by decide) (by decide)
  exact ⟨h.1, (h.2.1 (by decide)).1⟩

/-- Claim C9: a row whose label is present and non-sentinel, and a
candidate row whose coordinates are missing or do not parse as floats,
are written back with all fields unchanged and without any geocode
lookup; the rewritten file has exactly as many rows as were read, and
the written column order is the key order of the first row. -/
theorem fill_untouched (geo : ℚ → ℚ → ℕ → Option Addr) (rows : List Row) (i : ℕ) (row : Row)
    (hrow : rows.get? i = some row)
    (hskip : Fill.labelPresent row
      ∨ (¬ Fill.labelPresent row
          ∧ Fill.pyCoords (rowGet row "LON_WGS84") (rowGet row "LAT_WGS84") = none)) :
    ∃ hdr out, Fill.fillMain geo rows = some (hdr, out)
      ∧ out.get? i = some row
      ∧ (Fill.processRow geo row).2 = 0
      ∧ out.length = rows.length
      ∧ (∃ r0 rest, rows = r0 :: rest ∧ hdr = r0.map Prod.fst) := by
  have hpr : Fill.processRow geo row = (row, 0) := by
    rcases hskip with h | ⟨h1, h2⟩
    · unfold Fill.labelPresent at h
      simp only [Fill.processRow]
      rw [if_pos h]
    · unfold Fill.labelPresent at h1
      simp only [Fill.processRow, h2]
      rw [if_neg h1]
  cases rows with
  | nil => simp at hrow
  | cons r0 rest =>
    refine ⟨r0.map Prod.fst, ((r0 :: rest).map (fun r => (Fill.processRow geo r).1)),
      rfl, ?_, ?_, ?_, r0, rest, rfl, rfl⟩
    · rw [List.get?_map, hrow]
      simp [hpr]
    · rw [hpr]
    · simp

/-- Witness for C9: a present-label row kept byte-identical at the head
of a two-row file. -/
theorem fill_untouched_witness :
    ∃ hdr out, Fill.fillMain exGeoFail [exKeptRow, exBadCoordRow] = some (hdr, out)
      ∧ out.get? 0 = some exKeptRow
      ∧ (Fill.processRow exGeoFail exKeptRow).2 = 0
      ∧ out.length = [exKeptRow, exBadCoordRow].length
      ∧ (∃ r0 rest, [exKeptRow, exBadCoordRow] = r0 :: rest ∧ hdr = r0.map Prod.fst) :=
  fill_untouched exGeoFail [exKeptRow, exBadCoordRow] 0 exKeptRow rfl (Or.inl (by decide))

/-- The projection loop maps a pointwise-projecting endpoint over the
whole input, preserving order, whenever the fuel covers the list. -/
theorem projectLoop_map (f : Sync.OPoint → Sync.OPoint)
    (endpoint : List Sync.OPoint → List Sync.OPoint)
    (hend : ∀ ps, endpoint ps = ps.map f) :
    ∀ (n : ℕ) (l : List Sync.OPoint), l.length ≤ n →
      (Sync.projectLoop endpoint n l).1 = l.map f := by
  intro n
  induction n with
  | zero =>
    intro l hl
    rw [List.length_eq_zero.mp (Nat.le_zero.mp hl)]
    rfl
  | succ n ih =>
    intro l hl
    cases l with
    | nil => rfl
    | cons p rest =>
      have ht : (p :: rest).take Sync.BATCH_SIZE = p :: rest.take 199 := rfl
      have hd : (p :: rest).drop Sync.BATCH_SIZE = rest.drop 199 := rfl
      have hlen : (rest.drop 199).length ≤ n := by
        simp only [List.length_drop, List.length_cons] at hl ⊢
        omega
      simp only [Sync.projectLoop, ht, hd, Sync.project_points]
      rw [ih (rest.drop 199) hlen, hend, ← List.map_append]
      simp [List.take_append_drop]

/-- The batches submitted by the projection loop cover the input
exactly, in order. -/
theorem projectLoop_calls (endpoint : List Sync.OPoint → List Sync.OPoint) :
    ∀ (n : ℕ) (l : List Sync.OPoint), l.length ≤ n →
      (Sync.projectLoop endpoint n l).2.flatten = l := by
  intro n
  induction n with
  | zero =>
    intro l hl
    rw [List.length_eq_zero.mp (Nat.le_zero.mp hl)]
    rfl
  | succ n ih =>
    intro l hl
    cases l with
    | nil => rfl
    | cons p rest =>
      have ht : (p :: rest).take Sync.BATCH_SIZE = p :: rest.take 199 := rfl
      have hd : (p :: rest).drop Sync.BATCH_SIZE = rest.drop 199 := rfl
      have hlen : (rest.drop 199).length ≤ n := by
        simp only [List.length_drop, List.length_cons] at hl ⊢
        omega
      simp only [Sync.projectLoop, ht, hd, Sync.project_points]
      rw [if_neg (by decide : ¬(1 = 0)), List.singleton_append, List.flatten_cons,
        ih (rest.drop 199) hlen, ← ht, ← hd]
      exact List.take_append_drop Sync.BATCH_SIZE (p :: rest)

/-- Claim C4: project_points on the empty list returns the empty list
with zero network calls, and the batched projection stage (batch size
200) is order preserving under the documented endpoint contract (the
response lists the projected points in input order): the i-th output is
the projection of the i-th input, and lengths match. -/
theorem projection_order (f : Sync.OPoint → Sync.OPoint)
    (endpoint : List Sync.OPoint → List Sync.OPoint)
    (hend : ∀ ps, endpoint ps = ps.map f) (pts : List Sync.OPoint) :
    Sync.project_points endpoint [] = ([], 0)
  ∧ (Sync.batchedProject endpoint pts).1.length = pts.length
  ∧ (∀ i, (Sync.batchedProject endpoint pts).1.get? i = (pts.get? i).map f) := by
  have h := projectLoop_map f endpoint hend pts.length pts le_rfl
  refine ⟨rfl, ?_, ?_⟩
  · unfold Sync.batchedProject
    rw [h]
    simp
  · intro i
    unfold Sync.batchedProject
    rw [h]
    exact List.get?_map f pts i

/-- Witness for C4 at a one-point list and the identity projection. -/
theorem projection_order_witness :
    Sync.project_points exEndpoint [] = ([], 0)
  ∧ (Sync.batchedProject exEndpoint [((some 3 : Option ℚ), (some 5 : Option ℚ))]).1.length
      = [((some 3 : Option ℚ), (some 5 : Option ℚ))].length
  ∧ (Sync.batchedProject exEndpoint [((some 3 : Option ℚ), (some 5 : Option ℚ))]).1.get? 0
      = some (exProj ((some 3 : Option ℚ), (some 5 : Option ℚ))) :=
  ⟨(projection_order exProj exEndpoint (fun ps => rfl)
      [((some 3 : Option ℚ), (some 5 : Option ℚ))]).1,
   (projection_order exProj exEndpoint (fun ps => rfl)
      [((some 3 : Option ℚ), (some 5 : Option ℚ))]).2.1,
   (projection_order exProj exEndpoint (fun ps => rfl)
      [((some 3 : Option ℚ), (some 5 : Option ℚ))]).2.2 0⟩

/-- Full trace invariant of the pagination loop, generalized over the
starting offset: the accumulated features are the concatenation of the
pages; the last page received satisfies the stop condition (empty or
shorter than the page size) and no earlier page does; each request was
issued at the offset reached by summing the preceding page lengths. -/
theorem fetchLoopGo_spec (server : ℕ → ℕ → List Sync.Feature) :
    ∀ (fuel off : ℕ) (r : Sync.FetchResult), Sync.fetchLoopGo server fuel off = some r →
      r.features = r.pages.flatten
    ∧ (∃ last, r.pages.getLast? = some last
        ∧ (last = [] ∨ last.length < Sync.PAGE_SIZE))
    ∧ (∀ p ∈ r.pages.dropLast, Sync.PAGE_SIZE ≤ p.length)
    ∧ r.offsets.length = r.pages.length
    ∧ (∀ i, i < r.pages.length →
        r.offsets.get? i = some (off + ((r.pages.take i).map List.length).sum)) := by
  intro fuel
  induction fuel with
  | zero =>
    intro off r h
    exact absurd h (by simp [Sync.fetchLoopGo])
  | succ fuel ih =>
    intro off r h
    simp only [Sync.fetchLoopGo] at h
    by_cases hp : server off Sync.PAGE_SIZE = []
    · rw [hp, if_pos rfl] at h
      obtain rfl := (Option.some.inj h).symm
      refine ⟨rfl, ⟨[], rfl, Or.inl rfl⟩, by simp, rfl, ?_⟩
      intro i hi
      have hi0 : i = 0 := by simpa using hi
      subst hi0
      simp
    · rw [if_neg hp] at h
      by_cases hp2 : (server off Sync.PAGE_SIZE).length < Sync.PAGE_SIZE
      · rw [if_pos hp2] at h
        obtain rfl := (Option.some.inj h).symm
        refine ⟨by simp, ⟨server off Sync.PAGE_SIZE, rfl, Or.inr hp2⟩, by simp, rfl, ?_⟩
        intro i hi
        have hi0 : i = 0 := by simpa using hi
        subst hi0
        simp
      · rw [if_neg hp2] at h
        obtain ⟨r2, h2, rfl⟩ := Option.map_eq_some'.mp h
        obtain ⟨ihf, ⟨last, hlast, hstop⟩, ihdrop, ihlen, ihoff⟩ :=
          ih (off + (server off Sync.PAGE_SIZE).length) r2 h2
        obtain ⟨q, qs, hqp⟩ : ∃ q qs, r2.pages = q :: qs := by
          cases hc : r2.pages with
          | nil => rw [hc] at hlast; simp at hlast
          | cons q qs => exact ⟨q, qs, rfl⟩
        refine ⟨?_, ⟨last, ?_, hstop⟩, ?_, ?_, ?_⟩
        · dsimp only
          rw [ihf]
          simp
        · dsimp only
          rw [hqp, List.getLast?_cons_cons, ← hqp]
          exact hlast
        · dsimp only
          intro p hmem
          rw [hqp, List.dropLast_cons₂] at hmem
          rcases List.mem_cons.mp hmem with rfl | hmem2
          · exact Nat.not_lt.mp hp2
          · rw [hqp] at ihdrop
            exact ihdrop p hmem2
        · dsimp only
          simp [ihlen]
        · dsimp only
          intro i hi
          cases i with
          | zero => simp
          | succ j =>
            simp only [List.length_cons] at hi
            have hj : j < r2.pages.length := by omega
            have hoj := ihoff j hj
            simp only [List.get?_cons_succ, List.take_succ_cons, List.map_cons,
              List.sum_cons]
            rw [hoj]
            congr 1
            omega

/-- Claim C3: the pagination loop accumulates exactly the concatenation
of the pages received (its length is the sum of the page lengths); it
stops exactly when a page is empty or shorter than the requested page
size of 500 (every earlier page reached the full page size); and each
request offset equals the number of features received so far. -/
theorem pagination_exact (server : ℕ → ℕ → List Sync.Feature) (fuel : ℕ)
    (r : Sync.FetchResult) (h : Sync.fetchLoopGo server fuel 0 = some r) :
    r.features.length = (r.pages.map List.length).sum
  ∧ (∃ last, r.pages.getLast? = some last ∧ (last = [] ∨ last.length < Sync.PAGE_SIZE))
  ∧ (∀ p ∈ r.pages.dropLast, Sync.PAGE_SIZE ≤ p.length)
  ∧ r.offsets.length = r.pages.length
  ∧ (∀ i, i < r.pages.length →
      r.offsets.get? i = some (((r.pages.take i).map List.length).sum)) := by
  obtain ⟨hf, hlast, hdrop, hlen, hoff⟩ := fetchLoopGo_spec server fuel 0 r h
  refine ⟨by rw [hf]; simp, hlast, hdrop, hlen, ?_⟩
  intro i hi
  simpa using hoff i hi

/-- Witness for C3: a server whose first page has a single feature. -/
theorem pagination_exact_witness :
    exFetch.features.length = (exFetch.pages.map List.length).sum
  ∧ (∃ last, exFetch.pages.getLast? = some last
      ∧ (last = [] ∨ last.length < Sync.PAGE_SIZE)) :=
  ⟨(pagination_exact exServer 1 exFetch (by decide)).1,
   (pagination_exact exServer 1 exFetch (by decide)).2.1⟩

/-- In the existing-row branch the loop body of the sync writer is
cache independent, makes no geocode request, and writes the values
stored in the previous row. -/
theorem processFeature_existing (geo : ℚ → ℚ → Option Addr) (prev : List Row)
    (projected : List Sync.OPoint) (idx : ℕ) (feat : Sync.Feature) (cache : Sync.Cache)
    (e : Row) (he : Sync.load_existing prev (Sync.objectidOf feat.attributes) = some e)
    (hne : e ≠ []) :
    Sync.processFeature geo prev projected idx feat cache
      = (Sync.writeRow feat.attributes feat
          (Sync.Cell.str ((rowGet e "LON_WGS84").getD ""))
          (Sync.Cell.str ((rowGet e "LAT_WGS84").getD ""))
          ((rowGet e "RUE_REVERSE").getD ""), cache, 0) := by
  simp only [Sync.processFeature, he, Option.getD_some]
  rw [if_pos hne]

/-- The row written at position i by the sync writer loop is the loop
body at absolute index base + i, run under some intermediate cache. -/
theorem syncRowsAux_get (geo : ℚ → ℚ → Option Addr) (prev : List Row)
    (projected : List Sync.OPoint) :
    ∀ (fs : List Sync.Feature) (base i : ℕ) (c : Sync.Cache) (feat : Sync.Feature),
      fs.get? i = some feat →
      ∃ c2, (Sync.syncRowsAux geo prev projected base fs c).1.get? i
          = some (Sync.processFeature geo prev projected (base + i) feat c2).1 := by
  intro fs
  induction fs with
  | nil =>
    intro base i c feat h
    simp at h
  | cons f rest ih =>
    intro base i c feat h
    cases i with
    | zero =>
      obtain rfl := Option.some.inj h
      exact ⟨c, rfl⟩
    | succ j =>
      obtain ⟨c2, hc2⟩ := ih (base + 1) j
        ((Sync.processFeature geo prev projected base f c).2.1) feat (by simpa using h)
      refine ⟨c2, ?_⟩
      have harith : base + (j + 1) = base + 1 + j := by omega
      rw [harith]
      simp only [Sync.syncRowsAux, List.get?_cons_succ]
      exact hc2

/-- Counterexample to Claim C1 as stated: a feature whose OBJECTID
matches an existing row with the non-empty, non-sentinel label Rue Test
nonetheless has its geometry submitted to the projection endpoint — the
sync pipeline projects every fetched point up front (lines 117-125)
before the merge loop runs, so the no-projection part of the claim
fails. -/
theorem sync_merge_counterexample :
    rowGet exPrevRow "OBJECTID" = some "42"
  ∧ rowGet exPrevRow "RUE_REVERSE" = some "Rue Test"
  ∧ ¬ "Rue Test" = "" ∧ ¬ pyUpper "Rue Test" = "MISSING_RUE"
  ∧ Sync.objectidOf exFeat.attributes = "42"
  ∧ Sync.load_existing [exPrevRow] (Sync.objectidOf exFeat.attributes) = some exPrevRow
  ∧ (exFeat.gx, exFeat.gy)
      ∈ (Sync.batchedProject exEndpoint (Sync.syncPoints [exFeat])).2.flatten := by
  decide

/-- Claim C1 (amended): for every fetched feature whose OBJECTID string
has a row in the previous CSV with a non-empty, non-sentinel
RUE_REVERSE, the run writes that row's LON_WGS84, LAT_WGS84 and
RUE_REVERSE verbatim and makes no reverse-geocode request for that
feature; its geometry is nonetheless still submitted to the projection
endpoint, because the projection stage batches every fetched point
before the merge loop. -/
theorem sync_merge_rule (server : ℕ → ℕ → List Sync.Feature)
    (endpoint : List Sync.OPoint → List Sync.OPoint) (geo : ℚ → ℚ → Option Addr)
    (fuel : ℕ) (prev : List Row) (fr : Sync.FetchResult) (i : ℕ) (feat : Sync.Feature)
    (e : Row) (lonS latS rueS : String)
    (hfetch : Sync.fetchLoopGo server fuel 0 = some fr)
    (hf : fr.features.get? i = some feat)
    (he : Sync.load_existing prev (Sync.objectidOf feat.attributes) = some e)
    (hne : e ≠ [])
    (hlon : rowGet e "LON_WGS84" = some lonS)
    (hlat : rowGet e "LAT_WGS84" = some latS)
    (hrue : rowGet e "RUE_REVERSE" = some rueS)
    (hrne : rueS ≠ "") (hrsent : pyUpper rueS ≠ "MISSING_RUE") :
    ∃ rows nreq, Sync.syncMain server endpoint geo fuel prev = some (rows, nreq)
      ∧ rows.get? i
          = some (Sync.writeRow feat.attributes feat (Sync.Cell.str lonS)
              (Sync.Cell.str latS) rueS)
      ∧ (∀ c, (Sync.processFeature geo prev
            (Sync.batchedProject endpoint (Sync.syncPoints fr.features)).1
            i feat c).2.2 = 0)
      ∧ (Sync.syncPoints fr.features).get? i = some (feat.gx, feat.gy)
      ∧ (Sync.batchedProject endpoint (Sync.syncPoints fr.features)).2.flatten
          = Sync.syncPoints fr.features := by
  refine ⟨(Sync.syncRowsAux geo prev
      (Sync.batchedProject endpoint (Sync.syncPoints fr.features)).1 0 fr.features []).1,
    (Sync.syncRowsAux geo prev
      (Sync.batchedProject endpoint (Sync.syncPoints fr.features)).1 0 fr.features []).2.2,
    ?_, ?_, ?_, ?_, ?_⟩
  · unfold Sync.syncMain
    rw [hfetch]
    rfl
  · obtain ⟨c2, hc2⟩ := syncRowsAux_get geo prev
      (Sync.batchedProject endpoint (Sync.syncPoints fr.features)).1 fr.features 0 i [] feat hf
    simp only [Nat.zero_add] at hc2
    rw [hc2, processFeature_existing geo prev _ i feat c2 e he hne, hlon, hlat, hrue]
    simp
  · intro c
    rw [processFeature_existing geo prev _ i feat c e he hne]
  · unfold Sync.syncPoints
    rw [List.get?_map, hf]
    rfl
  · exact projectLoop_calls endpoint (Sync.syncPoints fr.features).length
      (Sync.syncPoints fr.features) le_rfl

/-- Witness for C1 (amended): a one-feature run whose OBJECTID 42 is
already resolved in the previous CSV. -/
theorem sync_merge_rule_witness :
    ∃ rows nreq, Sync.syncMain exServer exEndpoint exGeoFailS 1 [exPrevRow]
        = some (rows, nreq)
      ∧ rows.get? 0 = some (Sync.writeRow exFeat.attributes exFeat
          (Sync.Cell.str "-73.1") (Sync.Cell.str "45.2") "Rue Test")
      ∧ (∀ c, (Sync.processFeature exGeoFailS [exPrevRow]
            (Sync.batchedProject exEndpoint (Sync.syncPoints exFetch.features)).1
            0 exFeat c).2.2 = 0)
      ∧ (Sync.syncPoints exFetch.features).get? 0 = some (exFeat.gx, exFeat.gy)
      ∧ (Sync.batchedProject exEndpoint (Sync.syncPoints exFetch.features)).2.flatten
          = Sync.syncPoints exFetch.features :=
  sync_merge_rule exServer exEndpoint exGeoFailS 1 [exPrevRow] exFetch 0 exFeat exPrevRow
    "-73.1" "45.2" "Rue Test" (by decide) (by decide) (by decide) (by decide) (by decide)
    (by decide) (by decide) (by decide) (by decide)
